import Mathlib

/-!
Verification of the LR1120 driver status/interrupt decoder and of the
command/response wrappers, against a shallow embedding of the sources.
Bytes and machine words are represented as `Nat`; every bit operation of
the source is carried over literally (`>>>`, `&&&`, `|||`, `<<<`).
-/

deriving instance DecidableEq for Except

namespace LR1120

/-- Error taxonomy of the driver.  Modelled from the spec: the crate root
defining the `Lr1120Error` enumeration is not among the sources; its variants
are taken from the uses in the source modules (`Spi`, `Pin`, `CmdFail`,
`CmdErr`, `InvalidParam`, `Unknown`) plus the readiness-timeout error the
spec requires to be distinguishable from transport errors. -/
inductive Lr1120Error
  | Spi
  | Pin
  | Timeout
  | CmdFail
  | CmdErr
  | InvalidParam
  | Unknown
deriving DecidableEq

/-- Command status field of the device status (source `status.rs`, enum CmdStatus). -/
inductive CmdStatus
  | Fail
  | PErr
  | Ok
  | Data
  | Unknown
deriving DecidableEq, Fintype

/-- Discriminant values of `CmdStatus` as declared in the source. -/
def CmdStatus.val : CmdStatus → Nat
  | .Fail => 0
  | .PErr => 1
  | .Ok => 2
  | .Data => 3
  | .Unknown => 8

/-- Conversion `impl From<u8> for CmdStatus` (source `status.rs`). -/
def CmdStatus.from_u8 (value : Nat) : CmdStatus :=
  match value with
  | 0 => CmdStatus.Fail
  | 1 => CmdStatus.PErr
  | 2 => CmdStatus.Ok
  | 3 => CmdStatus.Data
  | _ => CmdStatus.Unknown

/-- Check of the command status, `CmdStatus::check` (source `status.rs`). -/
def CmdStatus.check : CmdStatus → Except Lr1120Error Unit
  | CmdStatus.Unknown => Except.error Lr1120Error.Unknown
  | CmdStatus.Fail => Except.error Lr1120Error.CmdFail
  | CmdStatus.PErr => Except.error Lr1120Error.CmdErr
  | CmdStatus.Ok => Except.ok ()
  | CmdStatus.Data => Except.ok ()

/-- Reset source field (source `status.rs`, enum ResetSrc). -/
inductive ResetSrc
  | Cleared
  | Analog
  | External
  | System
  | Watchdog
  | Iocd
  | Rtc
  | Unknown
deriving DecidableEq, Fintype

/-- Discriminant values of `ResetSrc` as declared in the source. -/
def ResetSrc.val : ResetSrc → Nat
  | .Cleared => 0
  | .Analog => 1
  | .External => 2
  | .System => 3
  | .Watchdog => 4
  | .Iocd => 5
  | .Rtc => 6
  | .Unknown => 16

/-- Chip mode field (source `status.rs`, enum ChipModeStatus). -/
inductive ChipModeStatus
  | Sleep
  | Rc
  | Xosc
  | Fs
  | Rx
  | Tx
  | Loc
  | Unknown
deriving DecidableEq, Fintype

/-- Discriminant values of `ChipModeStatus` as declared in the source. -/
def ChipModeStatus.val : ChipModeStatus → Nat
  | .Sleep => 0
  | .Rc => 1
  | .Xosc => 2
  | .Fs => 3
  | .Rx => 4
  | .Tx => 5
  | .Loc => 6
  | .Unknown => 8

/-- Execution context (source `status.rs`, enum ExecutionContext). -/
inductive ExecutionContext
  | Bootloader
  | Flash
deriving DecidableEq

/-- Device status: a 16-bit value, bits 11:9 command status, bit 8 interrupt
pending, bits 7:4 reset source, bits 2:0 chip mode (source `status.rs`,
struct Status). -/
structure Status where
  val : Nat
deriving DecidableEq

/-- Creation from two bytes, `Status::from_array`; the value is the
big-endian 16-bit combination of the bytes. -/
def Status.from_array (b0 b1 : Nat) : Status :=
  ⟨(b0 <<< 8) ||| b1⟩

/-- Creation from a byte list, `Status::from_slice`: any missing byte is
taken as zero (`unwrap_or(&0)` in the source). -/
def Status.from_slice (bytes : List Nat) : Status :=
  ⟨((bytes.headD 0) <<< 8) ||| bytes.getD 1 0⟩

/-- Command status accessor, `Status::cmd`. -/
def Status.cmd (s : Status) : CmdStatus :=
  CmdStatus.from_u8 ((s.val >>> 9) &&& 7)

/-- Interrupt-pending accessor, `Status::irq`. -/
def Status.irq (s : Status) : Bool :=
  (s.val &&& 0x0100) != 0

/-- Reset source accessor, `Status::reset_src`. -/
def Status.reset_src (s : Status) : ResetSrc :=
  match (s.val >>> 4) &&& 15 with
  | 0 => ResetSrc.Cleared
  | 1 => ResetSrc.Analog
  | 2 => ResetSrc.External
  | 3 => ResetSrc.System
  | 4 => ResetSrc.Watchdog
  | 5 => ResetSrc.Iocd
  | 6 => ResetSrc.Rtc
  | _ => ResetSrc.Unknown

/-- Chip mode accessor, `Status::chip_mode`. -/
def Status.chip_mode (s : Status) : ChipModeStatus :=
  match s.val &&& 7 with
  | 0 => ChipModeStatus.Sleep
  | 1 => ChipModeStatus.Rc
  | 2 => ChipModeStatus.Xosc
  | 3 => ChipModeStatus.Fs
  | 4 => ChipModeStatus.Rx
  | 5 => ChipModeStatus.Tx
  | 6 => ChipModeStatus.Loc
  | _ => ChipModeStatus.Unknown

/-- Status check, `Status::check`. -/
def Status.check (s : Status) : Except Lr1120Error Unit :=
  s.cmd.check

/-- Execution context accessor, `Status::context`. -/
def Status.context (s : Status) : ExecutionContext :=
  if s.val &&& 1 = 1 then ExecutionContext.Flash else ExecutionContext.Bootloader

/-- Short-form status, `impl From<u8> for Status`: the single byte is the
high byte, the low byte is forced to zero. -/
def Status.from_u8 (value : Nat) : Status :=
  ⟨value <<< 8⟩

/-- Interrupt mask constants (source `status.rs`). -/
def IRQ_MASK_TX_DONE : Nat := 0x00000004
def IRQ_MASK_RX_DONE : Nat := 0x00000008
def IRQ_MASK_PREAMBLE_DETECTED : Nat := 0x00000010
def IRQ_MASK_SW_HDR_VALID : Nat := 0x00000020
def IRQ_MASK_HEADER_ERR : Nat := 0x00000040
def IRQ_MASK_CRC_ERROR : Nat := 0x00000080
def IRQ_MASK_CAD_DONE : Nat := 0x00000100
def IRQ_MASK_CAD_DETECTED : Nat := 0x00000200
def IRQ_MASK_TIMEOUT : Nat := 0x00000400
def IRQ_MASK_LRFHSS_HOP : Nat := 0x00000800
def IRQ_MASK_GNSS_DONE : Nat := 0x00080000
def IRQ_MASK_WIFI_DONE : Nat := 0x00100000
def IRQ_MASK_LOW_BAT : Nat := 0x00200000
def IRQ_MASK_CMD : Nat := 0x00400000
def IRQ_MASK_ERROR : Nat := 0x00800000
def IRQ_MASK_LEN_ERROR : Nat := 0x01000000
def IRQ_MASK_ADDR_ERROR : Nat := 0x02000000
def IRQ_MASK_RX_TIMESTAMP : Nat := 0x08000000
def IRQ_MASK_GNSS_ABORT : Nat := 0x10000000

/-- Composite mask of all reception error interrupts (source `status.rs`). -/
def IRQ_MASK_RX_ERROR : Nat :=
  IRQ_MASK_HEADER_ERR ||| IRQ_MASK_CRC_ERROR ||| IRQ_MASK_LEN_ERROR ||| IRQ_MASK_ADDR_ERROR

/-- Interrupt word: a 32-bit value, one bit per event (source `status.rs`,
struct Intr). -/
structure Intr where
  val : Nat
deriving DecidableEq

/-- Creation from a byte list, `Intr::from_slice`: big-endian 32-bit
combination, any missing byte taken as zero. -/
def Intr.from_slice (bytes : List Nat) : Intr :=
  ⟨((bytes.headD 0) <<< 24) ||| ((bytes.getD 1 0) <<< 16)
    ||| ((bytes.getD 2 0) <<< 8) ||| bytes.getD 3 0⟩

/-- Creation from a mask value, `Intr::new`. -/
def Intr.new (value : Nat) : Intr :=
  ⟨value⟩

/-- Raw value accessor, `Intr::value`. -/
def Intr.value (i : Intr) : Nat :=
  i.val

/-- Generic mask test, `Intr::intr_match`. -/
def Intr.intr_match (i : Intr) (mask : Nat) : Bool :=
  i.value &&& mask != 0

def Intr.rx_timestamp (i : Intr) : Bool := (i.val &&& IRQ_MASK_RX_TIMESTAMP) != 0
def Intr.preamble_detected (i : Intr) : Bool := (i.val &&& IRQ_MASK_PREAMBLE_DETECTED) != 0
def Intr.sw_header_valid (i : Intr) : Bool := (i.val &&& IRQ_MASK_SW_HDR_VALID) != 0
def Intr.cad_detected (i : Intr) : Bool := (i.val &&& IRQ_MASK_CAD_DETECTED) != 0
def Intr.header_err (i : Intr) : Bool := (i.val &&& IRQ_MASK_HEADER_ERR) != 0
def Intr.low_bat (i : Intr) : Bool := (i.val &&& IRQ_MASK_LOW_BAT) != 0
def Intr.lrfhss_hop (i : Intr) : Bool := (i.val &&& IRQ_MASK_LRFHSS_HOP) != 0
def Intr.error (i : Intr) : Bool := (i.val &&& IRQ_MASK_ERROR) != 0
def Intr.cmd (i : Intr) : Bool := (i.val &&& IRQ_MASK_CMD) != 0
def Intr.rx_done (i : Intr) : Bool := (i.val &&& IRQ_MASK_RX_DONE) != 0
def Intr.tx_done (i : Intr) : Bool := (i.val &&& IRQ_MASK_TX_DONE) != 0
def Intr.cad_done (i : Intr) : Bool := (i.val &&& IRQ_MASK_CAD_DONE) != 0
def Intr.timeout (i : Intr) : Bool := (i.val &&& IRQ_MASK_TIMEOUT) != 0
def Intr.crc_error (i : Intr) : Bool := (i.val &&& IRQ_MASK_CRC_ERROR) != 0
def Intr.len_error (i : Intr) : Bool := (i.val &&& IRQ_MASK_LEN_ERROR) != 0
def Intr.addr_error (i : Intr) : Bool := (i.val &&& IRQ_MASK_ADDR_ERROR) != 0
def Intr.rx_error (i : Intr) : Bool := (i.val &&& IRQ_MASK_RX_ERROR) != 0

/-- Encoder written from the words of the spec round-trip property (to be
compared with the decoder of the source): the command outcome at bits 11:9,
the interrupt-pending flag at bit 8, the reset source at bits 7:4 and the
chip mode at bits 2:0 of a 16-bit status word. -/
def encodeStatus (c : CmdStatus) (i : Bool) (r : ResetSrc) (m : ChipModeStatus) : Nat :=
  (c.val <<< 9) ||| (cond i 0x100 0) ||| (r.val <<< 4) ||| m.val

/-! ## The transaction executor

The crate root implementing the transaction executor (`cmd_wr`, `cmd_data_wr`,
`wait_ready`, `rsp_rd`, `cmd_rd` and the shared transaction buffer) is not
among the sources; only its callers are.  It is modelled below from the spec
(sections 4.1 and 4.3) as explicit state passing over `DevState`, recording
each bus phase as one event so that the ordering claims can be stated on the
trace.  The per-command wrappers that follow the primitives are translated
from the source modules. -/

/-- Bus-level events of the transaction executor, one per phase.  Modelled
from the spec state machine: a `cmdWrite` is the whole write phase
(chip-select assertion, full-duplex transfer of the request bytes, release),
a `readyPoll` is one sample of the readiness signal, `ready` marks a
completed `wait_ready`, and a `respRead` is the whole response read phase
(chip-select assertion, transfer of NOP probe bytes, release). -/
inductive SpiEvent
  | cmdWrite (bytes : List Nat)
  | readyPoll (busy : Bool)
  | ready
  | respRead (nbBytes : Nat)
deriving DecidableEq

/-- Device-interaction state.  Modelled from the spec: `busyFor` is the fake
readiness source of the spec test discipline (stays busy for that many
polls, then reads ready), `chipRsp` the bytes the chip shifts out during the
next read phase, `buffer` the shared transaction buffer, `trace` the bus
events so far. -/
structure DevState where
  busyFor : Nat
  chipRsp : List Nat
  buffer : List Nat
  trace : List SpiEvent
deriving DecidableEq

/-- A device interaction: fallible state transformer over `DevState`. -/
abbrev DevM (α : Type) := DevState → Except Lr1120Error α × DevState

/-- Modelled from the spec (4.1 `write`): fire-and-forget command write;
assert chip-select, transfer the request bytes discarding the shadow
response, release chip-select.  Recorded as one `cmdWrite` event. -/
def cmd_wr (req : List Nat) : DevM Unit := fun s =>
  (Except.ok (), { s with trace := s.trace ++ [SpiEvent.cmdWrite req] })

/-- Modelled from the spec (4.1 `write_with_trailing_payload`): same as
`cmd_wr` with the variable-length payload appended to the request bytes. -/
def cmd_data_wr (req data : List Nat) : DevM Unit := fun s =>
  (Except.ok (), { s with trace := s.trace ++ [SpiEvent.cmdWrite (req ++ data)] })

/-- Modelled from the spec (4.1 `wait_ready`): poll the readiness signal
until it reads ready or the budget elapses; the caller-supplied duration is
counted here as a number of polls.  A completed wait is recorded as the
final non-busy poll followed by the `ready` event; exhausting the budget
yields the timeout error, distinguishable from transport errors. -/
def wait_ready : Nat → DevM Unit
  | 0 => fun s => (Except.error Lr1120Error.Timeout, s)
  | budget + 1 => fun s =>
    if s.busyFor = 0 then
      (Except.ok (), { s with trace := s.trace ++ [SpiEvent.readyPoll false, SpiEvent.ready] })
    else
      wait_ready budget
        { s with busyFor := s.busyFor - 1, trace := s.trace ++ [SpiEvent.readyPoll true] }

/-- Modelled from the spec (4.1 `write_then_read`, read phase; 4.3 buffer):
assert chip-select, transfer `n` zero probe bytes pumping the response into
the transaction buffer, release chip-select.  The buffer receives the bytes
the chip shifts out, zero-padded to the requested length. -/
def rsp_rd (n : Nat) : DevM Unit := fun s =>
  (Except.ok (), { s with buffer := (s.chipRsp ++ List.replicate n 0).take n,
                          trace := s.trace ++ [SpiEvent.respRead n] })

/-- Modelled from the spec (4.1 `write_then_read`): write phase, then
readiness wait, then read phase of `rspLen` bytes.  The wait budget is one
poll, matching the short waits the source wrappers pass for fast commands. -/
def cmd_rd (req : List Nat) (rspLen : Nat) : DevM Unit := fun s =>
  match cmd_wr req s with
  | (Except.error e, s1) => (Except.error e, s1)
  | (Except.ok _, s1) =>
    match wait_ready 1 s1 with
    | (Except.error e, s2) => (Except.error e, s2)
    | (Except.ok _, s2) => rsp_rd rspLen s2

/-! ## Request builders (sources `cmd/cmd_system.rs`, `cmd_regmem.rs`,
`cmd_gnss.rs`, `cmd_wifi.rs`, `cmd_crypto.rs`) -/

/-- Request builder `read_buffer8_req` (source `cmd_system.rs`). -/
def read_buffer8_req (offset len : Nat) : List Nat :=
  [0x01, 0x0A, offset, len]

/-- Modelled from the spec: the builder `read_buffer8_cmd` called by
`rd_rx_buffer` is not among the sources; it is modelled as the ReadBuffer8
request of section 6, with the byte layout of `read_buffer8_req`. -/
def read_buffer8_cmd (offset len : Nat) : List Nat :=
  read_buffer8_req offset len

/-- Request builder `read_reg_mem32_req` (source `cmd_regmem.rs`). -/
def read_reg_mem32_req (addr len : Nat) : List Nat :=
  [0x01, 0x06, (addr >>> 24) &&& 0xFF, (addr >>> 16) &&& 0xFF,
   (addr >>> 8) &&& 0xFF, addr &&& 0xFF, len]

/-- Request builder `gnss_get_sv_warm_start_req` (source `cmd_gnss.rs`). -/
def gnss_get_sv_warm_start_req (gps_en beidou_en : Bool) : List Nat :=
  [0x04, 0x66, (cond gps_en 1 0) ||| (cond beidou_en 2 0)]

/-- Result format selector for ReadResults (source `cmd_wifi.rs`). -/
inductive WifiResultFormat
  | Long
  | Short
deriving DecidableEq

/-- Discriminant values of `WifiResultFormat` as declared in the source. -/
def WifiResultFormat.val : WifiResultFormat → Nat
  | .Long => 1
  | .Short => 4

/-- Request builder `wifi_read_results_req` (source `cmd_wifi.rs`). -/
def wifi_read_results_req (index nb_results : Nat) (fmt : WifiResultFormat) : List Nat :=
  [0x03, 0x06, index, nb_results, fmt.val]

/-- Byte size of one short Wi-Fi scan result (source `wifi_scan.rs`). -/
def WIFI_RES_SHORT_SIZE : Nat := 9

/-- Key identifier of the crypto engine (source `cmd_crypto.rs`, enum KeyId). -/
inductive KeyId
  | Nwk | App | JsEnc | JsInt
  | GpKe0 | GpKe1 | GpKe2 | GpKe3 | GpKe4 | GpKe5
  | AppS | FNwkSInt | SNwkSInt | NwkSEnc | Rfu0 | Rfu1
  | McAppS0 | McAppS1 | McAppS2 | McAppS3
  | McNwkS0 | McNwkS1 | McNwkS2 | McNwkS3
  | Gp0 | Gp1
deriving DecidableEq

/-- Discriminant values of `KeyId` as declared in the source (2 to 27). -/
def KeyId.val : KeyId → Nat
  | .Nwk => 2 | .App => 3 | .JsEnc => 4 | .JsInt => 5
  | .GpKe0 => 6 | .GpKe1 => 7 | .GpKe2 => 8 | .GpKe3 => 9 | .GpKe4 => 10 | .GpKe5 => 11
  | .AppS => 12 | .FNwkSInt => 13 | .SNwkSInt => 14 | .NwkSEnc => 15 | .Rfu0 => 16 | .Rfu1 => 17
  | .McAppS0 => 18 | .McAppS1 => 19 | .McAppS2 => 20 | .McAppS3 => 21
  | .McNwkS0 => 22 | .McNwkS1 => 23 | .McNwkS2 => 24 | .McNwkS3 => 25
  | .Gp0 => 26 | .Gp1 => 27

/-- True when key is network or application, `KeyId::is_core`. -/
def KeyId.is_core : KeyId → Bool
  | .Nwk | .App => true
  | _ => false

/-- True when key is multicast, `KeyId::is_multicast`. -/
def KeyId.is_multicast : KeyId → Bool
  | .McAppS0 | .McAppS1 | .McAppS2 | .McAppS3
  | .McNwkS0 | .McNwkS1 | .McNwkS2 | .McNwkS3 => true
  | _ => false

/-- True when key is general purpose transport, `KeyId::is_gp_transport`. -/
def KeyId.is_gp_transport : KeyId → Bool
  | .GpKe0 | .GpKe1 | .GpKe2 | .GpKe3 | .GpKe4 | .GpKe5 => true
  | _ => false

/-- True when key is unicast, `KeyId::is_unicast`. -/
def KeyId.is_unicast : KeyId → Bool
  | .AppS | .FNwkSInt | .SNwkSInt | .NwkSEnc | .Rfu0 | .Rfu1 => true
  | _ => false

/-- Crypto engine status (source `cmd_crypto.rs`, enum CeStatus). -/
inductive CeStatus
  | Success
  | FailCmac
  | InvKeyId
  | BufSize
  | Error
deriving DecidableEq

/-- Conversion `impl From<u8> for CeStatus` (source `cmd_crypto.rs`). -/
def CeStatus.from_u8 (value : Nat) : CeStatus :=
  match value with
  | 6 => CeStatus.Error
  | 5 => CeStatus.BufSize
  | 3 => CeStatus.InvKeyId
  | 1 => CeStatus.FailCmac
  | _ => CeStatus.Success

/-- LoRaWAN version selector (source `cmd_crypto.rs`). -/
inductive LorawanVersion
  | V1p0
  | V1p1
deriving DecidableEq

/-- Discriminant values of `LorawanVersion` as declared in the source. -/
def LorawanVersion.val : LorawanVersion → Nat
  | .V1p0 => 0
  | .V1p1 => 1

/-- Big-endian byte decomposition of a 128-bit value, as written byte by
byte by the source request builders. -/
def u128_be_bytes (x : Nat) : List Nat :=
  (List.range 16).map (fun i => (x >>> (8 * (15 - i))) &&& 0xFF)

/-- Request builder `crypto_derive_key_req` (source `cmd_crypto.rs`). -/
def crypto_derive_key_req (src dst : KeyId) (input : Nat) : List Nat :=
  [0x05, 0x03, src.val, dst.val] ++ u128_be_bytes input

/-- Request builder `crypto_process_join_accept_req` (source `cmd_crypto.rs`). -/
def crypto_process_join_accept_req (dec mic : KeyId) (lorawan : LorawanVersion) : List Nat :=
  [0x05, 0x04, dec.val, mic.val, lorawan.val]

/-- Request builder `crypto_aes_encrypt01_req` (source `cmd_crypto.rs`). -/
def crypto_aes_encrypt01_req (key : KeyId) : List Nat :=
  [0x05, 0x07, key.val]

/-! ## Per-command wrappers (sources `system.rs`, `gnss.rs`, `wifi_scan.rs`,
`crypto.rs`), translated with the `?` operator of the source rendered as an
explicit match on the fallible primitive result. -/

/-- Wrapper `rd_rx_buffer` (source `system.rs`): write the ReadBuffer8
request, wait ready with a one-millisecond budget, read `len` response
bytes into the local buffer. -/
def rd_rx_buffer (offset len : Nat) : DevM Unit := fun s =>
  match cmd_wr (read_buffer8_cmd offset len) s with
  | (Except.error e, s1) => (Except.error e, s1)
  | (Except.ok _, s1) =>
    match wait_ready 1 s1 with
    | (Except.error e, s2) => (Except.error e, s2)
    | (Except.ok _, s2) => rsp_rd len s2

/-- Wrapper `gnss_get_warm_start_sv` (source `gnss.rs`): write the request,
wait ready, read `nb_sv` bytes and return them from the buffer. -/
def gnss_get_warm_start_sv (gps beidou : Bool) (nb_sv : Nat) : DevM (List Nat) := fun s =>
  match cmd_wr (gnss_get_sv_warm_start_req gps beidou) s with
  | (Except.error e, s1) => (Except.error e, s1)
  | (Except.ok _, s1) =>
    match wait_ready 1 s1 with
    | (Except.error e, s2) => (Except.error e, s2)
    | (Except.ok _, s2) =>
      match rsp_rd nb_sv s2 with
      | (Except.error e, s3) => (Except.error e, s3)
      | (Except.ok _, s3) => (Except.ok (s3.buffer.take nb_sv), s3)

/-- Wrapper `wifi_get_result_short` (source `wifi_scan.rs`): write the
ReadResults request for `nb` results in short format, wait ready with a
100-millisecond budget, read `min nb 32 * 9` bytes, and return that view of
the buffer (over which the source builds its result iterator). -/
def wifi_get_result_short (index nb : Nat) : DevM (List Nat) := fun s =>
  let nb_byte := min nb 32 * WIFI_RES_SHORT_SIZE
  match cmd_wr (wifi_read_results_req index nb WifiResultFormat.Short) s with
  | (Except.error e, s1) => (Except.error e, s1)
  | (Except.ok _, s1) =>
    match wait_ready 100 s1 with
    | (Except.error e, s2) => (Except.error e, s2)
    | (Except.ok _, s2) =>
      match rsp_rd nb_byte s2 with
      | (Except.error e, s3) => (Except.error e, s3)
      | (Except.ok _, s3) => (Except.ok (s3.buffer.take nb_byte), s3)

/-- Wrapper `ce_encrypt_lorawan` (source `crypto.rs`): after the key-class
guard, write the request with the plaintext payload appended and read the
response (one status byte followed by the data) with no intervening
readiness wait. -/
def ce_encrypt_lorawan (key : KeyId) (din : List Nat) : DevM (CeStatus × List Nat) := fun s =>
  if !key.is_unicast && !key.is_multicast then
    (Except.error Lr1120Error.InvalidParam, s)
  else
    match cmd_data_wr (crypto_aes_encrypt01_req key) din s with
    | (Except.error e, s1) => (Except.error e, s1)
    | (Except.ok _, s1) =>
      match rsp_rd din.length s1 with
      | (Except.error e, s2) => (Except.error e, s2)
      | (Except.ok _, s2) =>
        (Except.ok (CeStatus.from_u8 (s2.buffer.getD 0 0), (s2.buffer.drop 1).take din.length), s2)

/-- Header length of a join-accept message per LoRaWAN version: one MHDR
byte for 1.0, twelve bytes for 1.1 (the match at the start of
`ce_process_join_accept`, source `crypto.rs`). -/
def join_accept_hdr_len : LorawanVersion → Nat
  | LorawanVersion.V1p0 => 1
  | LorawanVersion.V1p1 => 12

/-- Wrapper `ce_process_join_accept` (source `crypto.rs`): reject any data
whose length minus the LoRaWAN header length (natural subtraction, as the
saturating subtraction of the source) is neither 16 nor 32; otherwise write
the request with the data appended, wait ready with a 100-millisecond
budget, read the response and return the crypto status and payload. -/
def ce_process_join_accept (dec mic : KeyId) (lorawan : LorawanVersion) (data : List Nat) :
    DevM (CeStatus × List Nat) := fun s =>
  let rsp_len := data.length - join_accept_hdr_len lorawan
  if rsp_len ≠ 16 ∧ rsp_len ≠ 32 then
    (Except.error Lr1120Error.InvalidParam, s)
  else
    match cmd_data_wr (crypto_process_join_accept_req dec mic lorawan) data s with
    | (Except.error e, s1) => (Except.error e, s1)
    | (Except.ok _, s1) =>
      match wait_ready 100 s1 with
      | (Except.error e, s2) => (Except.error e, s2)
      | (Except.ok _, s2) =>
        match rsp_rd rsp_len s2 with
        | (Except.error e, s3) => (Except.error e, s3)
        | (Except.ok _, s3) =>
          (Except.ok (CeStatus.from_u8 (s3.buffer.getD 0 0), (s3.buffer.drop 1).take rsp_len), s3)

/-- Wrapper `ce_derive_key` (source `crypto.rs`): reject a source key that is
neither core nor general-purpose transport, and a core destination key;
otherwise issue the DeriveKey request and read its two response bytes, the
second being the crypto engine status. -/
def ce_derive_key (src dst : KeyId) (input : Nat) : DevM CeStatus := fun s =>
  if !src.is_core && !src.is_gp_transport then
    (Except.error Lr1120Error.InvalidParam, s)
  else if dst.is_core then
    (Except.error Lr1120Error.InvalidParam, s)
  else
    match cmd_rd (crypto_derive_key_req src dst input) 2 s with
    | (Except.error e, s1) => (Except.error e, s1)
    | (Except.ok _, s1) => (Except.ok (CeStatus.from_u8 (s1.buffer.getD 1 0)), s1)

/-- Wrapper `rd_mem` (source `system.rs`): reject a word count above 40 with
the command error before any bus phase; otherwise write the ReadRegMem32
request, wait ready, run the read phase of `4 * nb32` bytes (the inline
chip-select, cleared-buffer transfer of the source is the read-phase
primitive) and check the command status found in the buffer (the missing
buffer method `cmd_status` is modelled from the spec as decoding the status
header at the start of the buffer). -/
def rd_mem (addr nb32 : Nat) : DevM Unit := fun s =>
  if nb32 > 40 then
    (Except.error Lr1120Error.CmdErr, s)
  else
    match cmd_wr (read_reg_mem32_req addr nb32) s with
    | (Except.error e, s1) => (Except.error e, s1)
    | (Except.ok _, s1) =>
      match wait_ready 1 s1 with
      | (Except.error e, s2) => (Except.error e, s2)
      | (Except.ok _, s2) =>
        match rsp_rd (4 * nb32) s2 with
        | (Except.error e, s3) => (Except.error e, s3)
        | (Except.ok _, s3) => ((Status.from_slice s3.buffer).check, s3)

/-- Trace predicate for the ordering invariant of the spec state machine:
scanning the events in order, a response read phase is permitted only when a
completed readiness wait has been observed since the last command write
phase (the AwaitingReady stage is not skipped). -/
def readsAfterReady : List SpiEvent → Bool → Bool
  | [], _ => true
  | SpiEvent.cmdWrite _ :: es, _ => readsAfterReady es false
  | SpiEvent.ready :: es, _ => readsAfterReady es true
  | SpiEvent.readyPoll _ :: es, ok => readsAfterReady es ok
  | SpiEvent.respRead _ :: es, ok => ok && readsAfterReady es ok

/-- Trace fragment of a completed readiness wait on a source that stays busy
for `k` polls: `k` busy samples, the ready sample, and wait completion. -/
def pollsThenReady (k : Nat) : List SpiEvent :=
  List.replicate k (SpiEvent.readyPoll true) ++ [SpiEvent.readyPoll false, SpiEvent.ready]

/-! ## Helper lemmas -/

theorem land_lor_right (a b m : Nat) : (a ||| b) &&& m = (a &&& m) ||| (b &&& m) := by
  apply Nat.eq_of_testBit_eq
  intro i
  simp [Nat.testBit_and, Nat.testBit_or, Bool.and_or_distrib_right]

theorem lor_eq_zero_iff (x y : Nat) : x ||| y = 0 ↔ x = 0 ∧ y = 0 := by
  constructor
  · intro h
    constructor
    · apply Nat.eq_of_testBit_eq
      intro i
      have hb := congrArg (fun t => Nat.testBit t i) h
      simp [Nat.testBit_or] at hb
      simp [hb.1]
    · apply Nat.eq_of_testBit_eq
      intro i
      have hb := congrArg (fun t => Nat.testBit t i) h
      simp [Nat.testBit_or] at hb
      simp [hb.2]
  · rintro ⟨rfl, rfl⟩
    rfl

theorem lor_bne_zero (x y : Nat) : ((x ||| y) != 0) = ((x != 0) || (y != 0)) := by
  apply Bool.eq_iff_iff.mpr
  simp [bne_iff_ne, lor_eq_zero_iff]
  tauto

theorem maskOrBool (m a b : Nat) :
    ((a ||| b) &&& m != 0) = (((a &&& m) != 0) || ((b &&& m) != 0)) := by
  rw [land_lor_right, lor_bne_zero]

/-- Full characterization of `wait_ready`: with a readiness source busy for
`busyFor` polls, a budget above `busyFor` completes the wait after the busy
polls plus the ready sample, and a smaller budget spends all its polls and
returns the timeout error, leaving no read phase in the trace. -/
theorem wait_ready_spec (budget : Nat) (s : DevState) :
    wait_ready budget s =
      if s.busyFor < budget then
        (Except.ok (),
          { busyFor := 0, chipRsp := s.chipRsp, buffer := s.buffer,
            trace := s.trace ++ pollsThenReady s.busyFor })
      else
        (Except.error Lr1120Error.Timeout,
          { busyFor := s.busyFor - budget, chipRsp := s.chipRsp, buffer := s.buffer,
            trace := s.trace ++ List.replicate budget (SpiEvent.readyPoll true) }) := by
  induction budget generalizing s with
  | zero => simp [wait_ready]
  | succ b ih =>
    obtain ⟨bf, cr, buf, tr⟩ := s
    cases bf with
    | zero => simp [wait_ready, pollsThenReady]
    | succ k =>
      rw [wait_ready]
      simp only [Nat.succ_ne_zero, if_neg, Nat.succ_sub_one]
      rw [ih]
      by_cases hkb : k < b
      · simp [hkb, Nat.succ_lt_succ_iff, List.replicate_succ, List.append_assoc, pollsThenReady]
      · simp [hkb, Nat.succ_lt_succ_iff, List.replicate_succ, List.append_assoc,
              Nat.succ_sub_succ, pollsThenReady]

theorem readsAfterReady_polls (k : Nat) (b : Bool) (es : List SpiEvent) (ok : Bool) :
    readsAfterReady (List.replicate k (SpiEvent.readyPoll b) ++ es) ok =
      readsAfterReady es ok := by
  induction k with
  | zero => rfl
  | succ n ih => simp [List.replicate_succ, readsAfterReady, ih]

/-! ## Claims -/

/-- C1, counterexample: on a ready device, `ce_encrypt_lorawan` performs the
response read phase directly after the command write, with no readiness
poll, no completed `wait_ready`, and hence a skipped AwaitingReady stage:
its trace violates the read-after-ready discipline. -/
theorem C1_counterexample :
    (ce_encrypt_lorawan KeyId.AppS [1] ⟨0, [], [], []⟩).2.trace =
      [SpiEvent.cmdWrite [5, 7, 12, 1], SpiEvent.respRead 1] ∧
    readsAfterReady (ce_encrypt_lorawan KeyId.AppS [1] ⟨0, [], [], []⟩).2.trace false = false := by
  decide

/-- C1 (amended): for the generic write-then-read executor and for the
wrappers `rd_rx_buffer`, `gnss_get_warm_start_sv` and
`wifi_get_result_short`, the response read phase is never performed before
`wait_ready` has reported ready: in every trace, from any readiness-source
state, a `respRead` only appears after a completed wait (and on a readiness
timeout no read phase happens at all).  `ce_encrypt_lorawan` is excluded:
it reads back with no intervening `wait_ready` (see the counterexample). -/
theorem C1_read_after_ready :
    (∀ (req : List Nat) (rspLen busy : Nat) (cr buf : List Nat),
      readsAfterReady (cmd_rd req rspLen ⟨busy, cr, buf, []⟩).2.trace false = true) ∧
    (∀ (offset len busy : Nat) (cr buf : List Nat),
      readsAfterReady (rd_rx_buffer offset len ⟨busy, cr, buf, []⟩).2.trace false = true) ∧
    (∀ (gps beidou : Bool) (nb_sv busy : Nat) (cr buf : List Nat),
      readsAfterReady (gnss_get_warm_start_sv gps beidou nb_sv ⟨busy, cr, buf, []⟩).2.trace false
        = true) ∧
    (∀ (index nb busy : Nat) (cr buf : List Nat),
      readsAfterReady (wifi_get_result_short index nb ⟨busy, cr, buf, []⟩).2.trace false
        = true) := by
  refine ⟨?_, ?_, ?_, ?_⟩
  · intro req rspLen busy cr buf
    unfold cmd_rd
    simp only [cmd_wr]
    rw [wait_ready_spec]
    by_cases h : busy < 1
    · simp [h, rsp_rd, pollsThenReady, readsAfterReady, readsAfterReady_polls]
    · simp [h, readsAfterReady, readsAfterReady_polls]
  · intro offset len busy cr buf
    unfold rd_rx_buffer
    simp only [cmd_wr]
    rw [wait_ready_spec]
    by_cases h : busy < 1
    · simp [h, rsp_rd, pollsThenReady, readsAfterReady, readsAfterReady_polls]
    · simp [h, readsAfterReady, readsAfterReady_polls]
  · intro gps beidou nb_sv busy cr buf
    unfold gnss_get_warm_start_sv
    simp only [cmd_wr]
    rw [wait_ready_spec]
    by_cases h : busy < 1
    · simp [h, rsp_rd, pollsThenReady, readsAfterReady, readsAfterReady_polls]
    · simp [h, readsAfterReady, readsAfterReady_polls]
  · intro index nb busy cr buf
    unfold wifi_get_result_short
    simp only [cmd_wr]
    rw [wait_ready_spec]
    by_cases h : busy < 100
    · simp [h, rsp_rd, pollsThenReady, readsAfterReady, readsAfterReady_polls]
    · simp [h, readsAfterReady, readsAfterReady_polls]

/-- C2, counterexample: the status bytes 0x48 0x00 do not decode to command
outcome Ok: bits 11:9 of 0x4800 are 100 (the value 4), outside the defined
outcomes. -/
theorem C2_counterexample :
    (Status.from_array 0x48 0x00).cmd ≠ CmdStatus.Ok := by
  decide

/-- C2 (amended): decoding the two status bytes 0x48 0x00 (the 16-bit value
0x4800) yields command outcome Unknown (bits 11:9 are 100 = 4, not a defined
outcome), interrupt pending false, and chip mode Sleep. -/
theorem C2_status_4800 :
    (Status.from_array 0x48 0x00).cmd = CmdStatus.Unknown ∧
    (Status.from_array 0x48 0x00).irq = false ∧
    (Status.from_array 0x48 0x00).chip_mode = ChipModeStatus.Sleep := by
  decide

/-- C3: for every decoded status, the outcome check maps Ok and Data
(streaming) to success, Fail to the fatal-command error, PErr to the
invalid-parameter command error, Unknown to the protocol error, and it
returns an error in exactly those three cases. -/
theorem C3_outcome_check (s : Status) :
    ((s.cmd = CmdStatus.Ok ∨ s.cmd = CmdStatus.Data) → s.check = Except.ok ()) ∧
    (s.cmd = CmdStatus.Fail → s.check = Except.error Lr1120Error.CmdFail) ∧
    (s.cmd = CmdStatus.PErr → s.check = Except.error Lr1120Error.CmdErr) ∧
    (s.cmd = CmdStatus.Unknown → s.check = Except.error Lr1120Error.Unknown) ∧
    ((∃ e, s.check = Except.error e) ↔
      (s.cmd = CmdStatus.Fail ∨ s.cmd = CmdStatus.PErr ∨ s.cmd = CmdStatus.Unknown)) := by
  cases h : s.cmd <;> simp [Status.check, CmdStatus.check, h]

theorem C3_witness :
    (Status.from_array 4 0).check = Except.ok () ∧
    (Status.from_array 0 0).check = Except.error Lr1120Error.CmdFail :=
  ⟨(C3_outcome_check (Status.from_array 4 0)).1 (Or.inl (by decide)),
   (C3_outcome_check (Status.from_array 0 0)).2.1 (by decide)⟩

/-- C4: for every valid field combination (outcome not Unknown, reset source
not Unknown, chip mode not Unknown, any interrupt flag), encoding the
fields at the documented bit positions into two big-endian bytes and
decoding with the status decoder yields back exactly the same fields. -/
theorem C4_status_roundtrip :
    ∀ (c : CmdStatus) (i : Bool) (r : ResetSrc) (m : ChipModeStatus),
      c ≠ CmdStatus.Unknown → r ≠ ResetSrc.Unknown → m ≠ ChipModeStatus.Unknown →
      (Status.from_array (encodeStatus c i r m >>> 8) (encodeStatus c i r m &&& 0xFF)).cmd = c ∧
      (Status.from_array (encodeStatus c i r m >>> 8) (encodeStatus c i r m &&& 0xFF)).irq = i ∧
      (Status.from_array (encodeStatus c i r m >>> 8) (encodeStatus c i r m &&& 0xFF)).reset_src
        = r ∧
      (Status.from_array (encodeStatus c i r m >>> 8) (encodeStatus c i r m &&& 0xFF)).chip_mode
        = m := by
  decide

theorem C4_witness :
    (Status.from_array (encodeStatus CmdStatus.Ok true ResetSrc.Watchdog ChipModeStatus.Rx >>> 8)
      (encodeStatus CmdStatus.Ok true ResetSrc.Watchdog ChipModeStatus.Rx &&& 0xFF)).cmd
        = CmdStatus.Ok ∧
    (Status.from_array (encodeStatus CmdStatus.Ok true ResetSrc.Watchdog ChipModeStatus.Rx >>> 8)
      (encodeStatus CmdStatus.Ok true ResetSrc.Watchdog ChipModeStatus.Rx &&& 0xFF)).irq = true ∧
    (Status.from_array (encodeStatus CmdStatus.Ok true ResetSrc.Watchdog ChipModeStatus.Rx >>> 8)
      (encodeStatus CmdStatus.Ok true ResetSrc.Watchdog ChipModeStatus.Rx &&& 0xFF)).reset_src
        = ResetSrc.Watchdog ∧
    (Status.from_array (encodeStatus CmdStatus.Ok true ResetSrc.Watchdog ChipModeStatus.Rx >>> 8)
      (encodeStatus CmdStatus.Ok true ResetSrc.Watchdog ChipModeStatus.Rx &&& 0xFF)).chip_mode
        = ChipModeStatus.Rx :=
  C4_status_roundtrip CmdStatus.Ok true ResetSrc.Watchdog ChipModeStatus.Rx
    (by decide) (by decide) (by decide)

/-- C5: decoding a single status byte (short form, byte shifted into the
high byte with the low byte zero) agrees with decoding the two-byte slice
of that byte followed by zero, on every field accessor; in particular for
the byte 0x40. -/
theorem C5_short_form :
    (∀ b : Nat,
      (Status.from_u8 b).cmd = (Status.from_slice [b, 0]).cmd ∧
      (Status.from_u8 b).irq = (Status.from_slice [b, 0]).irq ∧
      (Status.from_u8 b).reset_src = (Status.from_slice [b, 0]).reset_src ∧
      (Status.from_u8 b).chip_mode = (Status.from_slice [b, 0]).chip_mode ∧
      (Status.from_u8 b).context = (Status.from_slice [b, 0]).context) ∧
    Status.from_u8 0x40 = Status.from_slice [0x40, 0] := by
  have h : ∀ b : Nat, Status.from_u8 b = Status.from_slice [b, 0] := by
    intro b
    simp [Status.from_u8, Status.from_slice]
  exact ⟨fun b => by rw [h b]; exact ⟨rfl, rfl, rfl, rfl, rfl⟩, h 0x40⟩

/-- C6: every named interrupt accessor is the test of its documented mask
bit against the 32-bit interrupt word, independent of all other bits, and
consequently every accessor commutes with the bitwise OR of two interrupt
words. -/
theorem C6_intr_bitmask (v a b : Nat) :
    ((Intr.new v).tx_done = true ↔ v &&& IRQ_MASK_TX_DONE ≠ 0) ∧
    ((Intr.new v).rx_done = true ↔ v &&& IRQ_MASK_RX_DONE ≠ 0) ∧
    ((Intr.new v).preamble_detected = true ↔ v &&& IRQ_MASK_PREAMBLE_DETECTED ≠ 0) ∧
    ((Intr.new v).sw_header_valid = true ↔ v &&& IRQ_MASK_SW_HDR_VALID ≠ 0) ∧
    ((Intr.new v).header_err = true ↔ v &&& IRQ_MASK_HEADER_ERR ≠ 0) ∧
    ((Intr.new v).crc_error = true ↔ v &&& IRQ_MASK_CRC_ERROR ≠ 0) ∧
    ((Intr.new v).cad_done = true ↔ v &&& IRQ_MASK_CAD_DONE ≠ 0) ∧
    ((Intr.new v).cad_detected = true ↔ v &&& IRQ_MASK_CAD_DETECTED ≠ 0) ∧
    ((Intr.new v).timeout = true ↔ v &&& IRQ_MASK_TIMEOUT ≠ 0) ∧
    ((Intr.new v).lrfhss_hop = true ↔ v &&& IRQ_MASK_LRFHSS_HOP ≠ 0) ∧
    ((Intr.new v).low_bat = true ↔ v &&& IRQ_MASK_LOW_BAT ≠ 0) ∧
    ((Intr.new v).cmd = true ↔ v &&& IRQ_MASK_CMD ≠ 0) ∧
    ((Intr.new v).error = true ↔ v &&& IRQ_MASK_ERROR ≠ 0) ∧
    ((Intr.new v).len_error = true ↔ v &&& IRQ_MASK_LEN_ERROR ≠ 0) ∧
    ((Intr.new v).addr_error = true ↔ v &&& IRQ_MASK_ADDR_ERROR ≠ 0) ∧
    ((Intr.new v).rx_timestamp = true ↔ v &&& IRQ_MASK_RX_TIMESTAMP ≠ 0) ∧
    ((Intr.new (a ||| b)).tx_done = ((Intr.new a).tx_done || (Intr.new b).tx_done)) ∧
    ((Intr.new (a ||| b)).rx_done = ((Intr.new a).rx_done || (Intr.new b).rx_done)) ∧
    ((Intr.new (a ||| b)).preamble_detected
      = ((Intr.new a).preamble_detected || (Intr.new b).preamble_detected)) ∧
    ((Intr.new (a ||| b)).sw_header_valid
      = ((Intr.new a).sw_header_valid || (Intr.new b).sw_header_valid)) ∧
    ((Intr.new (a ||| b)).header_err = ((Intr.new a).header_err || (Intr.new b).header_err)) ∧
    ((Intr.new (a ||| b)).crc_error = ((Intr.new a).crc_error || (Intr.new b).crc_error)) ∧
    ((Intr.new (a ||| b)).cad_done = ((Intr.new a).cad_done || (Intr.new b).cad_done)) ∧
    ((Intr.new (a ||| b)).cad_detected
      = ((Intr.new a).cad_detected || (Intr.new b).cad_detected)) ∧
    ((Intr.new (a ||| b)).timeout = ((Intr.new a).timeout || (Intr.new b).timeout)) ∧
    ((Intr.new (a ||| b)).lrfhss_hop = ((Intr.new a).lrfhss_hop || (Intr.new b).lrfhss_hop)) ∧
    ((Intr.new (a ||| b)).low_bat = ((Intr.new a).low_bat || (Intr.new b).low_bat)) ∧
    ((Intr.new (a ||| b)).cmd = ((Intr.new a).cmd || (Intr.new b).cmd)) ∧
    ((Intr.new (a ||| b)).error = ((Intr.new a).error || (Intr.new b).error)) ∧
    ((Intr.new (a ||| b)).len_error = ((Intr.new a).len_error || (Intr.new b).len_error)) ∧
    ((Intr.new (a ||| b)).addr_error = ((Intr.new a).addr_error || (Intr.new b).addr_error)) ∧
    ((Intr.new (a ||| b)).rx_timestamp
      = ((Intr.new a).rx_timestamp || (Intr.new b).rx_timestamp)) :=
  ⟨bne_iff_ne, bne_iff_ne, bne_iff_ne, bne_iff_ne, bne_iff_ne, bne_iff_ne, bne_iff_ne,
   bne_iff_ne, bne_iff_ne, bne_iff_ne, bne_iff_ne, bne_iff_ne, bne_iff_ne, bne_iff_ne,
   bne_iff_ne, bne_iff_ne,
   maskOrBool IRQ_MASK_TX_DONE a b, maskOrBool IRQ_MASK_RX_DONE a b,
   maskOrBool IRQ_MASK_PREAMBLE_DETECTED a b, maskOrBool IRQ_MASK_SW_HDR_VALID a b,
   maskOrBool IRQ_MASK_HEADER_ERR a b, maskOrBool IRQ_MASK_CRC_ERROR a b,
   maskOrBool IRQ_MASK_CAD_DONE a b, maskOrBool IRQ_MASK_CAD_DETECTED a b,
   maskOrBool IRQ_MASK_TIMEOUT a b, maskOrBool IRQ_MASK_LRFHSS_HOP a b,
   maskOrBool IRQ_MASK_LOW_BAT a b, maskOrBool IRQ_MASK_CMD a b,
   maskOrBool IRQ_MASK_ERROR a b, maskOrBool IRQ_MASK_LEN_ERROR a b,
   maskOrBool IRQ_MASK_ADDR_ERROR a b, maskOrBool IRQ_MASK_RX_TIMESTAMP a b⟩

/-- C7: the interrupt word 0x00000408 decodes with rx_done true (bit 3) and
timeout true (bit 10), and every other named accessor, including the
composite rx_error, false. -/
theorem C7_intr_0x408 :
    (Intr.new 0x00000408).rx_done = true ∧
    (Intr.new 0x00000408).timeout = true ∧
    (Intr.new 0x00000408).tx_done = false ∧
    (Intr.new 0x00000408).preamble_detected = false ∧
    (Intr.new 0x00000408).sw_header_valid = false ∧
    (Intr.new 0x00000408).header_err = false ∧
    (Intr.new 0x00000408).crc_error = false ∧
    (Intr.new 0x00000408).cad_done = false ∧
    (Intr.new 0x00000408).cad_detected = false ∧
    (Intr.new 0x00000408).lrfhss_hop = false ∧
    (Intr.new 0x00000408).low_bat = false ∧
    (Intr.new 0x00000408).cmd = false ∧
    (Intr.new 0x00000408).error = false ∧
    (Intr.new 0x00000408).len_error = false ∧
    (Intr.new 0x00000408).addr_error = false ∧
    (Intr.new 0x00000408).rx_timestamp = false ∧
    (Intr.new 0x00000408).rx_error = false := by
  decide

set_option maxRecDepth 4000 in
/-- C8, counterexample: requesting 33 short Wi-Fi results (above the
per-call maximum of 32) does not return a caller error: on a ready device
the call succeeds and its read phase transfers 288 bytes, fewer than the
297 bytes of 33 results. -/
theorem C8_counterexample :
    (wifi_get_result_short 0 33 ⟨0, [], [], []⟩).1 = Except.ok (List.replicate 288 0) ∧
    (wifi_get_result_short 0 33 ⟨0, [], [], []⟩).2.trace =
      [SpiEvent.cmdWrite [3, 6, 0, 33, 4], SpiEvent.readyPoll false, SpiEvent.ready,
       SpiEvent.respRead 288] ∧
    (288 : Nat) < 33 * 9 := by
  decide

/-- C8 (amended): `rd_mem` rejects a word count above the 40-word buffer
capacity with the command error, before any bus activity (the device state
is returned unchanged); `wifi_get_result_short` however does not reject a
result count above its per-call maximum of 32 — it clamps the count to 32
and reads `min nb 32 * 9` bytes, completing successfully. -/
theorem C8_capacity :
    (∀ (addr nb32 : Nat) (s : DevState), 40 < nb32 →
      rd_mem addr nb32 s = (Except.error Lr1120Error.CmdErr, s)) ∧
    (∀ (index nb busy : Nat) (cr buf : List Nat), busy < 100 →
      (wifi_get_result_short index nb ⟨busy, cr, buf, []⟩).1 =
        Except.ok ((cr ++ List.replicate (min nb 32 * WIFI_RES_SHORT_SIZE) 0).take
          (min nb 32 * WIFI_RES_SHORT_SIZE)) ∧
      (wifi_get_result_short index nb ⟨busy, cr, buf, []⟩).2.trace =
        [SpiEvent.cmdWrite (wifi_read_results_req index nb WifiResultFormat.Short)]
        ++ pollsThenReady busy
        ++ [SpiEvent.respRead (min nb 32 * WIFI_RES_SHORT_SIZE)]) := by
  constructor
  · intro addr nb32 s h
    simp [rd_mem, h]
  · intro index nb busy cr buf h
    unfold wifi_get_result_short
    simp only [cmd_wr]
    rw [wait_ready_spec]
    simp [h, rsp_rd, pollsThenReady, List.append_assoc, List.take_take]

theorem C8_witness :
    rd_mem 0 41 ⟨0, [], [], []⟩ = (Except.error Lr1120Error.CmdErr, ⟨0, [], [], []⟩) ∧
    (wifi_get_result_short 0 33 ⟨0, [], [], []⟩).2.trace =
      [SpiEvent.cmdWrite (wifi_read_results_req 0 33 WifiResultFormat.Short)]
      ++ pollsThenReady 0 ++ [SpiEvent.respRead (min 33 32 * WIFI_RES_SHORT_SIZE)] :=
  ⟨C8_capacity.1 0 41 ⟨0, [], [], []⟩ (by decide),
   (C8_capacity.2 0 33 0 [] [] (by decide)).2⟩

/-- C9: the slice decoders of the status (nominal 2 bytes) and of the
interrupt word (nominal 4 bytes) are total functions of the byte list
taking every missing byte as zero: decoding any list equals decoding the
same list zero-padded to the nominal width. -/
theorem C9_from_slice_total (l : List Nat) :
    Status.from_slice l = Status.from_slice (l ++ List.replicate (2 - l.length) 0) ∧
    Intr.from_slice l = Intr.from_slice (l ++ List.replicate (4 - l.length) 0) := by
  constructor
  · match l with
    | [] => rfl
    | [a] => rfl
    | a :: b :: t => simp [Status.from_slice]
  · match l with
    | [] => rfl
    | [a] => rfl
    | [a, b] => rfl
    | [a, b, c] => rfl
    | a :: b :: c :: d :: t => simp [Intr.from_slice]

/-- C10: `ce_process_join_accept` returns the invalid-parameter error with
the device state unchanged (no bus or pin activity) whenever the data
length minus the version header length (natural, saturating subtraction) is
neither 16 nor 32; `ce_derive_key` likewise when the source key is neither
core nor general-purpose transport, or when the destination key is core. -/
theorem C10_crypto_guards :
    (∀ (dec mic : KeyId) (ver : LorawanVersion) (data : List Nat) (s : DevState),
      data.length - join_accept_hdr_len ver ≠ 16 →
      data.length - join_accept_hdr_len ver ≠ 32 →
      ce_process_join_accept dec mic ver data s = (Except.error Lr1120Error.InvalidParam, s)) ∧
    (∀ (src dst : KeyId) (input : Nat) (s : DevState),
      src.is_core = false → src.is_gp_transport = false →
      ce_derive_key src dst input s = (Except.error Lr1120Error.InvalidParam, s)) ∧
    (∀ (src dst : KeyId) (input : Nat) (s : DevState),
      dst.is_core = true →
      ce_derive_key src dst input s = (Except.error Lr1120Error.InvalidParam, s)) := by
  refine ⟨?_, ?_, ?_⟩
  · intro dec mic ver data s h16 h32
    unfold ce_process_join_accept
    simp [h16, h32]
  · intro src dst input s h1 h2
    simp [ce_derive_key, h1, h2]
  · intro src dst input s h
    unfold ce_derive_key
    by_cases h1 : (!src.is_core && !src.is_gp_transport) = true
    · simp [h1]
    · simp [h1, h]

theorem C10_witness :
    ce_process_join_accept KeyId.Nwk KeyId.Nwk LorawanVersion.V1p0 [] ⟨0, [], [], []⟩ =
      (Except.error Lr1120Error.InvalidParam, ⟨0, [], [], []⟩) ∧
    ce_derive_key KeyId.JsEnc KeyId.Gp0 0 ⟨0, [], [], []⟩ =
      (Except.error Lr1120Error.InvalidParam, ⟨0, [], [], []⟩) ∧
    ce_derive_key KeyId.Nwk KeyId.App 0 ⟨0, [], [], []⟩ =
      (Except.error Lr1120Error.InvalidParam, ⟨0, [], [], []⟩) :=
  ⟨C10_crypto_guards.1 KeyId.Nwk KeyId.Nwk LorawanVersion.V1p0 [] ⟨0, [], [], []⟩
     (by decide) (by decide),
   C10_crypto_guards.2.1 KeyId.JsEnc KeyId.Gp0 0 ⟨0, [], [], []⟩ (by decide) (by decide),
   C10_crypto_guards.2.2 KeyId.Nwk KeyId.App 0 ⟨0, [], [], []⟩ (by decide)⟩

end LR1120
